import Mathlib

/-!
Verification development for the `tap-algolia` extraction engine
(`src/tap_algolia/client.py`, `src/tap_algolia/streams.py`).

The Python sources are shallowly embedded: dates are modelled by their
proleptic-Gregorian ordinals (exactly CPython's `date.toordinal` /
`date.fromordinal` arithmetic, which backs all `date`/`timedelta`
operations used by the tap), records by association lists mirroring
Python `dict` semantics (insertion order, in-place update, append on new
key), and the per-day retry loop by a function over the sequence of
transport behaviours.
-/

namespace TapAlgolia

/-! ## Calendar arithmetic (CPython `datetime`: `_is_leap`, `_days_in_month`,
`_days_before_month`, `_days_before_year`, `_ymd2ord`, `_ord2ymd`). -/

/-- A calendar date `year-month-day`, as produced by `_ord2ymd`. -/
structure Ymd where
  year : Nat
  month : Nat
  day : Nat
deriving DecidableEq, Repr

/-- CPython `_is_leap`: `year % 4 == 0 and (year % 100 != 0 or year % 400 == 0)`. -/
def isLeap (y : Nat) : Bool :=
  y % 4 == 0 && (y % 100 != 0 || y % 400 == 0)

/-- CPython `_DAYS_IN_MONTH` table (index by month 1..12, non-leap February). -/
def daysInMonthTable : Nat → Nat
  | 1 => 31 | 2 => 28 | 3 => 31 | 4 => 30 | 5 => 31 | 6 => 30
  | 7 => 31 | 8 => 31 | 9 => 30 | 10 => 31 | 11 => 30 | 12 => 31
  | _ => 0

/-- CPython `_days_in_month`. -/
def daysInMonth (y m : Nat) : Nat :=
  if m == 2 && isLeap y then 29 else daysInMonthTable m

/-- CPython `_DAYS_BEFORE_MONTH` table (cumulative days before month, non-leap). -/
def daysBeforeMonthTable : Nat → Nat
  | 1 => 0 | 2 => 31 | 3 => 59 | 4 => 90 | 5 => 120 | 6 => 151
  | 7 => 181 | 8 => 212 | 9 => 243 | 10 => 273 | 11 => 304 | 12 => 334
  | _ => 0

/-- CPython `_days_before_month`. -/
def daysBeforeMonth (y m : Nat) : Nat :=
  daysBeforeMonthTable m + (if 2 < m && isLeap y then 1 else 0)

/-- CPython `_days_before_year` (for `year ≥ 1`). -/
def daysBeforeYear (y : Nat) : Nat :=
  let z := y - 1
  z * 365 + z / 4 - z / 100 + z / 400

/-- CPython `_ymd2ord`: the proleptic-Gregorian ordinal of a date
(`0001-01-01` is ordinal 1), i.e. Python's `date.toordinal()`. -/
def ymd2ord (d : Ymd) : Nat :=
  daysBeforeYear d.year + daysBeforeMonth d.year d.month + d.day

/-- CPython `_ord2ymd`, i.e. Python's `date.fromordinal`. -/
def ord2ymd (n : Nat) : Ymd :=
  let n0 := n - 1
  let n400 := n0 / 146097
  let r400 := n0 % 146097
  let n100 := r400 / 36524
  let r100 := r400 % 36524
  let n4 := r100 / 1461
  let r4 := r100 % 1461
  let n1 := r4 / 365
  let r1 := r4 % 365
  let year := n400 * 400 + n100 * 100 + n4 * 4 + n1 + 1
  if n1 == 4 || n100 == 4 then
    ⟨year - 1, 12, 31⟩
  else
    let leap := n1 == 3 && (n4 != 24 || n100 == 3)
    let month := (r1 + 50) / 32
    let preceding := daysBeforeMonthTable month + (if 2 < month && leap then 1 else 0)
    if r1 < preceding then
      let month1 := month - 1
      let preceding1 := preceding - (daysInMonthTable month1 + (if month1 == 2 && leap then 1 else 0))
      ⟨year, month1, r1 - preceding1 + 1⟩
    else
      ⟨year, month, r1 - preceding + 1⟩

/-! ## ISO date strings (`date.isoformat()` and `strptime("%Y-%m-%d")`). -/

/-- Decimal digit character for `n < 10`. -/
def digitChar (n : Nat) : Char := Char.ofNat (48 + n)

/-- Zero-padded 4-digit rendering (as in `isoformat`'s `%04d` for years ≤ 9999,
which is Python's whole `date` range). -/
def pad4 (n : Nat) : List Char :=
  [digitChar (n / 1000 % 10), digitChar (n / 100 % 10), digitChar (n / 10 % 10), digitChar (n % 10)]

/-- Zero-padded 2-digit rendering (`%02d`). -/
def pad2 (n : Nat) : List Char :=
  [digitChar (n / 10 % 10), digitChar (n % 10)]

/-- `date.fromordinal(n).isoformat()`: the `YYYY-MM-DD` string of an ordinal. -/
def isoFormat (n : Nat) : String :=
  let d := ord2ymd n
  ⟨pad4 d.year ++ '-' :: (pad2 d.month ++ '-' :: pad2 d.day)⟩

/-- Whether a character is an ASCII decimal digit. -/
def isDigitCh (c : Char) : Bool := 48 ≤ c.toNat && c.toNat ≤ 57

/-- Value of a digit string (most significant first). -/
def digitsToNat (cs : List Char) : Nat :=
  cs.foldl (fun a c => a * 10 + (c.toNat - 48)) 0

/-- Split a character list at `-` separators. -/
def splitDash : List Char → List Char → List (List Char)
  | [], acc => [acc.reverse]
  | c :: rest, acc =>
    if c = '-' then acc.reverse :: splitDash rest []
    else splitDash rest (c :: acc)

/-- `datetime.strptime(s, "%Y-%m-%d").date()` as an ordinal: `%Y` is exactly
four digits, `%m`/`%d` one or two digits in range, and the `date` constructor
additionally requires `day ≤ days_in_month` and `year ≥ 1`; any failure raises
`ValueError`, modelled as `none`. -/
def parseIsoDate (s : String) : Option Nat :=
  match splitDash s.toList [] with
  | [ys, ms, ds] =>
    if ys.length = 4 && ys.all isDigitCh
        && (ms.length = 1 || ms.length = 2) && ms.all isDigitCh
        && (ds.length = 1 || ds.length = 2) && ds.all isDigitCh then
      let y := digitsToNat ys
      let m := digitsToNat ms
      let d := digitsToNat ds
      if 1 ≤ y && 1 ≤ m && m ≤ 12 && 1 ≤ d && d ≤ daysInMonth y m then
        some (ymd2ord ⟨y, m, d⟩)
      else none
    else none
  | _ => none

/-! Sanity checks of the calendar embedding against known values of
CPython's `toordinal`/`fromordinal`/`isoformat`/`strptime`. -/

theorem sanity_ord_base : ymd2ord ⟨1, 1, 1⟩ = 1 := by decide

theorem sanity_roundtrip_samples :
    ord2ymd (ymd2ord ⟨2024, 1, 10⟩) = ⟨2024, 1, 10⟩ ∧
    ord2ymd (ymd2ord ⟨2024, 2, 29⟩) = ⟨2024, 2, 29⟩ ∧
    ord2ymd (ymd2ord ⟨2024, 2, 29⟩ + 1) = ⟨2024, 3, 1⟩ ∧
    ord2ymd (ymd2ord ⟨2023, 12, 31⟩ + 1) = ⟨2024, 1, 1⟩ ∧
    ord2ymd (ymd2ord ⟨2000, 2, 28⟩ + 1) = ⟨2000, 2, 29⟩ ∧
    ord2ymd (ymd2ord ⟨1900, 2, 28⟩ + 1) = ⟨1900, 3, 1⟩ ∧
    ord2ymd (ymd2ord ⟨2024, 12, 31⟩) = ⟨2024, 12, 31⟩ := by decide

theorem sanity_iso_format :
    isoFormat (ymd2ord ⟨2024, 1, 10⟩) = "2024-01-10" ∧
    isoFormat (ymd2ord ⟨2024, 1, 10⟩ + 1) = "2024-01-11" := by decide

theorem sanity_parse :
    parseIsoDate "2024-01-10" = some (ymd2ord ⟨2024, 1, 10⟩) ∧
    parseIsoDate "2024-1-5" = some (ymd2ord ⟨2024, 1, 5⟩) ∧
    parseIsoDate "2024-02-30" = none ∧
    parseIsoDate "2024-13-01" = none ∧
    parseIsoDate "02/01/2024" = none ∧
    parseIsoDate "" = none ∧
    parseIsoDate "0000-01-01" = none := by decide

/-! ## Decimal numbers (`decimal.Decimal`, used via
`response.json(parse_float=decimal.Decimal)` in `client.py`). -/

/-- A `decimal.Decimal` value: sign, coefficient digits (no leading zeros
except for the single digit 0), and exponent, as in `Decimal.as_tuple()`. -/
structure DecNum where
  neg : Bool
  digits : List Nat
  exp : Int
deriving DecidableEq, Repr

/-- Digits of a natural number, most significant first (`fuel`-bounded
division loop; `natDigits` supplies sufficient fuel). -/
def natDigitsAux : Nat → Nat → List Char → List Char
  | 0, _, acc => acc
  | fuel + 1, n, acc =>
    if n < 10 then digitChar n :: acc
    else natDigitsAux fuel (n / 10) (digitChar (n % 10) :: acc)

/-- Decimal string of a natural number (Python `str(int)` for `n ≥ 0`). -/
def natToStr (n : Nat) : String := ⟨natDigitsAux (n + 1) n []⟩

/-- Python `str(int)`. -/
def intToStr : Int → String
  | .ofNat n => natToStr n
  | .negSucc n => ⟨'-' :: (natToStr (n + 1)).toList⟩

/-- Exponent rendering `"%+d" % e` used in `Decimal.__str__`. -/
def expToStr (e : Int) : List Char :=
  match e with
  | .ofNat n => '+' :: (natToStr n).toList
  | .negSucc n => '-' :: (natToStr (n + 1)).toList

/-- `decimal.Decimal.__str__` (the to-scientific-string conversion of the
General Decimal Arithmetic specification, as implemented by CPython). -/
def decToString (d : DecNum) : String :=
  let digs := d.digits.map digitChar
  let leftdigits : Int := d.exp + digs.length
  let dotplace : Int := if d.exp ≤ 0 && -6 < leftdigits then leftdigits else 1
  let body :=
    if dotplace ≤ 0 then
      '0' :: '.' :: (List.replicate (-dotplace).toNat '0' ++ digs)
    else if (digs.length : Int) ≤ dotplace then
      digs ++ List.replicate (dotplace - digs.length).toNat '0'
    else
      digs.take dotplace.toNat ++ '.' :: digs.drop dotplace.toNat
  let tail := if leftdigits == dotplace then [] else 'E' :: expToStr (leftdigits - dotplace)
  ⟨(if d.neg then ['-'] else []) ++ body ++ tail⟩

/-- `Decimal(token)` for a JSON number token: the coefficient is the integer
and fraction digits with leading zeros stripped (`str(int(intpart+fracpart))`)
and the exponent is the written exponent minus the fraction length. -/
def decOfParts (neg : Bool) (ip fp : List Nat) (e : Int) : DecNum :=
  let stripped := (ip ++ fp).dropWhile (· == 0)
  ⟨neg, if stripped.isEmpty then [0] else stripped, e - fp.length⟩

/-- Digit characters to digit values, or `none` if any is not a digit. -/
def digitVals (cs : List Char) : Option (List Nat) :=
  if cs.all isDigitCh then some (cs.map (fun c => c.toNat - 48)) else none

/-- Parse the fraction-and-exponent part of a JSON number token after the
integer digits: `(\.\d+)? ([eE][+-]?\d+)?`. -/
def parseFracExp (cs : List Char) : Option (List Nat × Int) :=
  match cs with
  | [] => some ([], 0)
  | '.' :: rest =>
    let fracCs := rest.takeWhile isDigitCh
    let after := rest.dropWhile isDigitCh
    if fracCs.isEmpty then none
    else
      match digitVals fracCs, after with
      | some fp, [] => some (fp, 0)
      | some fp, 'e' :: es => (parseSignedExp es).map (fun e => (fp, e))
      | some fp, 'E' :: es => (parseSignedExp es).map (fun e => (fp, e))
      | _, _ => none
  | 'e' :: es => (parseSignedExp es).map (fun e => ([], e))
  | 'E' :: es => (parseSignedExp es).map (fun e => ([], e))
  | _ => none
where
  /-- Parse `[+-]?\d+` as an integer exponent. -/
  parseSignedExp (cs : List Char) : Option Int :=
    match cs with
    | '+' :: ds => if ds ≠ [] && ds.all isDigitCh then some (digitsToNat ds) else none
    | '-' :: ds => if ds ≠ [] && ds.all isDigitCh then some (-(digitsToNat ds : Int)) else none
    | ds => if ds ≠ [] && ds.all isDigitCh then some (digitsToNat ds) else none

/-- Parse a JSON number token (`-? (0|[1-9]\d*) (\.\d+)? ([eE][+-]?\d+)?`) the
way `json.loads(..., parse_float=decimal.Decimal)` does for non-integer
tokens: the matched text is handed to the `Decimal` constructor. -/
def decFromJsonToken (s : String) : Option DecNum :=
  let cs := s.toList
  let (neg, cs1) := match cs with
    | '-' :: rest => (true, rest)
    | _ => (false, cs)
  let ipCs := cs1.takeWhile isDigitCh
  let restCs := cs1.dropWhile isDigitCh
  if ipCs.isEmpty then none
  else if 1 < ipCs.length && ipCs.head? == some '0' then none
  else
    match digitVals ipCs, parseFracExp restCs with
    | some ip, some (fp, e) => some (decOfParts neg ip fp e)
    | _, _ => none

/-- The exact rational value of a `DecNum`. -/
def decValue (d : DecNum) : ℚ :=
  (if d.neg then -1 else 1) * (d.digits.foldl (fun a n => a * 10 + n) 0 : ℚ) * 10 ^ d.exp

theorem sanity_decimal :
    decFromJsonToken "0.1" = some ⟨false, [1], -1⟩ ∧
    decToString ⟨false, [1], -1⟩ = "0.1" ∧
    decFromJsonToken "0.10" = some ⟨false, [1, 0], -2⟩ ∧
    decToString ⟨false, [1, 0], -2⟩ = "0.10" ∧
    decFromJsonToken "12.5" = some ⟨false, [1, 2, 5], -1⟩ ∧
    decToString ⟨false, [1, 2, 5], -1⟩ = "12.5" ∧
    decFromJsonToken "-0.25" = some ⟨true, [2, 5], -2⟩ ∧
    decToString ⟨true, [2, 5], -2⟩ = "-0.25" ∧
    decFromJsonToken "1e3" = some ⟨false, [1], 3⟩ ∧
    decToString ⟨false, [1], 3⟩ = "1E+3" := by decide

/-! ## Records (Python `dict` with insertion order). -/

/-- A field value inside a record: a JSON string, integer, decimal
(`parse_float=decimal.Decimal`), boolean, null, or a date-like object (one
with an `isoformat` method, carried as its ordinal). -/
inductive FieldVal where
  | str (s : String)
  | int (n : Int)
  | dec (d : DecNum)
  | bool (b : Bool)
  | null
  | dateVal (ord : Nat)
deriving DecidableEq, Repr

/-- A record: an association list with Python `dict` semantics. -/
abbrev Rec := List (String × FieldVal)

/-- `r.get(k)` / `k in r`. -/
def lookupF : Rec → String → Option FieldVal
  | [], _ => none
  | (k1, v) :: rest, k => if k1 = k then some v else lookupF rest k

/-- `r[k] = v`: update in place if the key exists (keeping its position),
otherwise append at the end — exactly Python's `dict` assignment. -/
def setF : Rec → String → FieldVal → Rec
  | [], k, v => [(k, v)]
  | (k1, v1) :: rest, k, v =>
    if k1 = k then (k, v) :: rest else (k1, v1) :: setF rest k v

theorem lookupF_setF_self (r : Rec) (k : String) (v : FieldVal) :
    lookupF (setF r k v) k = some v := by
  induction r with
  | nil => simp [setF, lookupF]
  | cons p rest ih =>
    by_cases h : p.1 = k
    · simp [setF, lookupF, h]
    · simp [setF, lookupF, h, ih]

theorem lookupF_setF_other (r : Rec) (k k1 : String) (v : FieldVal) (h : k1 ≠ k) :
    lookupF (setF r k1 v) k = lookupF r k := by
  induction r with
  | nil => simp [setF, lookupF, h]
  | cons p rest ih =>
    by_cases h1 : p.1 = k1
    · simp [setF, lookupF, h1, h]
    · simp [setF, lookupF, h1, ih]

/-! ## Date-range resolution
(`AlgoliaAnalyticsStream.get_records`, `client.py` lines 325-361). -/

/-- Class attribute `AlgoliaAnalyticsStream.default_date_window`. -/
def default_date_window : Nat := 30

/-- The window-resolution prefix of `AlgoliaAnalyticsStream.get_records`
(`client.py` lines 325-356), over date ordinals:
`end_date = date.today()`; `start_date = end_date - timedelta(default_date_window)`;
if the stream has a replication key and state holds a (truthy) replication
value that parses as `%Y-%m-%d`, start from the day after it (parse failure
is caught and logged); then a `start_date`/`end_date` in the caller context
overrides the corresponding side when it parses, and is discarded with a
warning when it does not. -/
def resolveWindow (defaultWindow : Nat) (hasRepKey : Bool) (today : Nat)
    (repValue ctxStart ctxEnd : Option String) : Nat × Nat :=
  let end0 := today
  let start0 := today - defaultWindow
  let start1 :=
    if hasRepKey then
      match repValue with
      | some rv =>
        if rv ≠ "" then
          match parseIsoDate rv with
          | some last => last + 1
          | none => start0
        else start0
      | none => start0
    else start0
  let start2 :=
    match ctxStart with
    | some s => match parseIsoDate s with
      | some d => d
      | none => start1
    | none => start1
  let end2 :=
    match ctxEnd with
    | some s => match parseIsoDate s with
      | some d => d
      | none => end0
    | none => end0
  (start2, end2)

/-! ## Day decomposition (`client.py` lines 363-382). -/

/-- The ordinals of the processed days:
`[start_date + timedelta(days=i) for i in range((end_date-start_date).days + 1)]`. -/
def dayOrdinals (s e : Nat) : List Nat :=
  (List.range (e - s + 1)).map (fun i => s + i)

/-- The per-day context built at `client.py` lines 372-382 (identical code at
`streams.py` lines 238-248): `start_date`, `end_date` and `date` all equal the
day's ISO string, and every other caller-context entry except `state` is
copied through. -/
structure DayContext where
  start_date : String
  end_date : String
  date : String
  extra : List (String × String)
deriving DecidableEq, Repr

/-- The keys not copied from the caller context into a day context. -/
def reservedKeys : List String := ["start_date", "end_date", "date", "state"]

/-- Build the day context for the day with ordinal `d`. -/
def mkDayContext (d : Nat) (ctx : List (String × String)) : DayContext :=
  ⟨isoFormat d, isoFormat d, isoFormat d,
    ctx.filter (fun p => !(reservedKeys.contains p.1))⟩

/-- The day contexts of a run: none when `start > end` (`client.py`
lines 358-361), else one per day of the inclusive range. -/
def dayContexts (s e : Nat) (ctx : List (String × String)) : List DayContext :=
  if s > e then [] else (dayOrdinals s e).map (fun d => mkDayContext d ctx)

/-! ## URL parameters (`AlgoliaAnalyticsStream.get_url_params`,
`client.py` lines 197-262). -/

/-- The query parameters produced by `get_url_params`. -/
structure UrlParams where
  index : String
  startDate : String
  endDate : String
  clickAnalytics : Bool
  tags : Option String
  limit : Nat
  offset : Nat
deriving DecidableEq, Repr

/-- `AlgoliaAnalyticsStream.get_url_params`: the index comes from the context
or else the first configured index (`ValueError`, modelled as `none`, when
neither is a non-empty value); `startDate`/`endDate` come from the context or
default to the last `defaultWindow` days ending today; `limit` is
`getattr(self, "limit", 1000)`; `offset` is the (truthy) page token or 0. -/
def get_url_params (ctxIndex : Option String) (cfgIndices : List String)
    (ctxDates : Option (String × String)) (today defaultWindow : Nat)
    (includeClickAnalytics : Bool) (cfgTags : Option String)
    (limitAttr : Option Nat) (nextPageToken : Option Nat) : Option UrlParams :=
  let fromCtx := match ctxIndex with
    | some i => if i ≠ "" then some i else none
    | none => none
  let index? := match fromCtx with
    | some i => some i
    | none => cfgIndices.head?
  match index? with
  | none => none
  | some index =>
    let dates := match ctxDates with
      | some se => se
      | none => (isoFormat (today - defaultWindow), isoFormat today)
    let tags := match cfgTags with
      | some tg => if tg ≠ "" then some tg else none
      | none => none
    let limit := match limitAttr with
      | some l => l
      | none => 1000
    let offset := match nextPageToken with
      | some t => if t ≠ 0 then t else 0
      | none => 0
    some ⟨index, dates.1, dates.2, includeClickAnalytics, tags, limit, offset⟩

/-! ## Response normalization (`AlgoliaAnalyticsStream.parse_response`,
`client.py` lines 267-311). -/

/-- An entry extracted by `extract_jsonpath(self.records_jsonpath, data)`:
either a JSON object (a record) or some non-dict value. -/
inductive Entry where
  | dict (r : Rec)
  | nonDict
deriving DecidableEq, Repr

/-- The enrichment loop of `parse_response`: non-dict entries are skipped;
each dict entry is shallow-copied, gets `index_name` from the request URL's
`index` parameter if not already present, and then the URL's
`startDate`/`endDate` are written into `start_date`/`end_date`
(`enriched_record.update(context)`). -/
def parse_response (entries : List Entry) (indexName : String)
    (startDate endDate : Option String) : List Rec :=
  entries.filterMap fun e =>
    match e with
    | .nonDict => none
    | .dict r =>
      let e1 := if (lookupF r "index_name").isSome then r
                else setF r "index_name" (.str indexName)
      let e2 := match startDate with
        | some s => setF e1 "start_date" (.str s)
        | none => e1
      let e3 := match endDate with
        | some s => setF e2 "end_date" (.str s)
        | none => e2
      some e3

/-! ## Per-record date fixups. -/

/-- The fixup applied by the base `AlgoliaAnalyticsStream.get_records` to each
record before yielding it (`client.py` lines 397-401): set `date` to the day's
ISO string when missing; when present but not a string, replace it by its own
`isoformat()` (if it has one) or `str()` rendering; when present and a string,
leave it untouched. -/
def fixDate (day : Nat) (r : Rec) : Rec :=
  match lookupF r "date" with
  | none => setF r "date" (.str (isoFormat day))
  | some (.str _) => r
  | some (.dateVal o) => setF r "date" (.str (isoFormat o))
  | some (.int n) => setF r "date" (.str (intToStr n))
  | some (.dec d) => setF r "date" (.str (decToString d))
  | some (.bool b) => setF r "date" (.str (if b then "True" else "False"))
  | some .null => setF r "date" (.str "None")

/-- The fixup applied by the overriding `get_records` of `TopSearchesStream`,
`NoResultsSearchesStream` and `NoClicksSearchesStream` (`streams.py` lines
258-263, 617-622, 802-807): `record["date"] = current_date.isoformat()`,
unconditionally. -/
def overwriteDate (day : Nat) (r : Rec) : Rec :=
  setF r "date" (.str (isoFormat day))

/-! ## Per-day fetch with retry (`client.py` lines 387-432). -/

/-- One behaviour of `super().get_records(day_context)` for one attempt:
either it yields a full list of records and finishes, or it yields a prefix
and then raises `ConnectionResetError`, or it yields a prefix and raises some
other exception. -/
inductive Attempt where
  | success (records : List Rec)
  | connReset (yielded : List Rec)
  | otherError (yielded : List Rec)

/-- How a day's retry loop ends: normally, by re-raising
`ConnectionResetError` after exhausting retries, or by re-raising another
exception immediately. -/
inductive DayOutcome where
  | ok
  | failedConnReset
  | failedOther
deriving DecidableEq, Repr

/-- The `while retry_count < max_retries` loop of `client.py` lines 388-432,
as a function of the successive transport behaviours. Returns the records
yielded to the consumer (including those yielded before an exception), the
`time.sleep` durations `retry_delay * 2 ** (retry_count - 1)`, and the
outcome. An empty behaviour list means the transport is not called again. -/
def runDayLoop (maxRetries retryDelay : Nat) : List Attempt → Nat → List Rec × List Nat × DayOutcome
  | [], _ => ([], [], .ok)
  | a :: rest, retryCount =>
    if retryCount < maxRetries then
      match a with
      | .success rs => (rs, [], .ok)
      | .connReset ys =>
        let rc := retryCount + 1
        if rc < maxRetries then
          let sleepTime := retryDelay * 2 ^ (rc - 1)
          let res := runDayLoop maxRetries retryDelay rest rc
          (ys ++ res.1, sleepTime :: res.2.1, res.2.2)
        else (ys, [], .failedConnReset)
      | .otherError ys => (ys, [], .failedOther)
    else ([], [], .ok)

/-- A day's fetch with the source's constants `max_retries = 5`,
`retry_delay = 1`, starting from `retry_count = 0`. -/
def runDay (attempts : List Attempt) : List Rec × List Nat × DayOutcome :=
  runDayLoop 5 1 attempts 0

/-- Apply a per-record transform to every record an attempt yields. -/
def mapAttempt (tf : Rec → Rec) : Attempt → Attempt
  | .success rs => .success (rs.map tf)
  | .connReset ys => .connReset (ys.map tf)
  | .otherError ys => .otherError (ys.map tf)

/-- A day's fetch in the base stream: every yielded record passes through the
`date` fixup before reaching the consumer. -/
def runDayFixed (day : Nat) (attempts : List Attempt) : List Rec × List Nat × DayOutcome :=
  runDay (attempts.map (mapAttempt (fixDate day)))

/-- The sequential day loop of `client.py` lines 368-432: days are processed
in order; a day that fails fatally stops the run, with the records yielded so
far already emitted. -/
def processDays (transport : Nat → List Attempt) : List Nat → List Rec × DayOutcome
  | [] => ([], .ok)
  | d :: rest =>
    let res := runDayFixed d (transport d)
    match res.2.2 with
    | .ok =>
      let tail := processDays transport rest
      (res.1 ++ tail.1, tail.2)
    | out => (res.1, out)

/-- `AlgoliaAnalyticsStream.get_records` end to end: resolve the window,
return nothing when `start_date > end_date`, else process each day with the
retry loop and the per-record `date` fixup. `transport d` gives the successive
behaviours of the paginated fetch for day `d`. -/
def get_records (defaultWindow : Nat) (hasRepKey : Bool) (today : Nat)
    (repValue ctxStart ctxEnd : Option String)
    (transport : Nat → List Attempt) : List Rec × DayOutcome :=
  let se := resolveWindow defaultWindow hasRepKey today repValue ctxStart ctxEnd
  if se.1 > se.2 then ([], .ok)
  else processDays transport (dayOrdinals se.1 se.2)

/-- Modelled from the spec: the replication bookmark kept by the external
state store (the singer-sdk state machinery is not part of this repository's
sources). Spec section 4.5: after a run the persisted bookmark becomes the
maximum `date` value among all emitted records, or is left unchanged if zero
records were emitted. -/
def advanceBookmark (prev : Option String) (emitted : List Rec) : Option String :=
  let dates := emitted.filterMap fun r =>
    match lookupF r "date" with
    | some (.str s) => some s
    | _ => none
  dates.foldl (fun acc s =>
    match acc with
    | none => some s
    | some a => some (max a s)) prev

/-! ## Pagination within one day.

The analytics streams do not run any offset-advancing pagination loop:
`AlgoliaAnalyticsStream` extends `RESTStream` directly (`client.py` line 117),
sets `next_page_token_jsonpath = None` (`client.py` line 124) and never
overrides `get_new_paginator`; the `BaseOffsetPaginator` declared on
`AlgoliaStream` (`client.py` lines 66-78) is inherited by none of the streams
registered in `tap.py` lines 109-116. So the request loop runs singer-sdk's
default token paginator, and pagination advances only on a next-page token
taken from the response. -/

/-- One page response as the paginator sees it: the records it yields plus the
optional next-page token the default paginator extracts from the response.
The analytics streams configure no token source in the response body
(`next_page_token_jsonpath = None`) and the Algolia Analytics API supplies no
next-page token, so their responses always carry `none`. -/
structure PageResponse where
  records : List Rec
  nextToken : Option Nat
deriving DecidableEq, Repr

/-- Modelled from the singer-sdk request loop (`RESTStream.request_records`),
which is not part of this repository's sources, as configured by src/ (see the
section comment above): the paginator starts with no token; after each page it
advances to the next-page token extracted from the response, and finishes when
the response carries none. `pageAt tok` is the response to the request built
with page token `tok` (the token is what `get_url_params` receives as
`next_page_token`); `fuel` bounds the number of requests. -/
def requestPages (pageAt : Option Nat → PageResponse) :
    Nat → Option Nat → List (Option Nat × PageResponse)
  | 0, _ => []
  | fuel + 1, tok =>
    let resp := pageAt tok
    match resp.nextToken with
    | some t => (tok, resp) :: requestPages pageAt fuel (some t)
    | none => [(tok, resp)]

/-- A day's paginated fetch for an analytics stream: every response carries no
next-page token, whatever records it holds. -/
def analyticsDayPages (pageAt : Option Nat → List Rec) (fuel : Nat) :
    List (Option Nat × PageResponse) :=
  requestPages (fun tok => ⟨pageAt tok, none⟩) fuel none

/-! ## The query-list streams' per-day normalization
(`TopSearchesStream`, `streams.py` lines 238-263). -/

/-- One day of `TopSearchesStream.get_records`: the records of
`parse_response` (whose request URL carried `startDate = endDate =` the day's
ISO string) with `date` overwritten to the day's ISO string. -/
def topSearchesDayRecords (day : Nat) (indexName : String)
    (entries : List Entry) : List Rec :=
  (parse_response entries indexName (some (isoFormat day)) (some (isoFormat day))).map
    (overwriteDate day)

/-! ## Claim theorems -/

/-- C2: date-range resolution obeys the stated precedence: a parsing
caller-context `start_date` override wins over everything (also over a present
bookmark); with a bookmark and no override, start is the bookmark date plus
one day and end defaults to today; with neither, the window is
`[today - default_window_days, today]` with `default_window_days = 30` by
default. -/
theorem C2_window_resolution_precedence (today : Nat) (rv ov : String) (last d : Nat)
    (hrv : parseIsoDate rv = some last) (hov : parseIsoDate ov = some d) :
    (resolveWindow 30 true today (some rv) (some ov) none).1 = d ∧
    resolveWindow 30 true today (some rv) none none = (last + 1, today) ∧
    resolveWindow 30 true today none none none = (today - 30, today) ∧
    default_date_window = 30 := by
  have hne : rv ≠ "" := by
    intro h
    rw [h, show parseIsoDate "" = none from rfl] at hrv
    exact Option.noConfusion hrv
  refine ⟨?_, ?_, ?_, rfl⟩ <;> simp [resolveWindow, hrv, hov, hne]

theorem C2_window_resolution_precedence_witness :
    (resolveWindow 30 true (ymd2ord ⟨2024, 6, 15⟩) (some "2024-01-10") (some "2024-02-01") none).1
      = ymd2ord ⟨2024, 2, 1⟩ ∧
    resolveWindow 30 true (ymd2ord ⟨2024, 6, 15⟩) (some "2024-01-10") none none
      = (ymd2ord ⟨2024, 1, 10⟩ + 1, ymd2ord ⟨2024, 6, 15⟩) ∧
    resolveWindow 30 true (ymd2ord ⟨2024, 6, 15⟩) none none none
      = (ymd2ord ⟨2024, 6, 15⟩ - 30, ymd2ord ⟨2024, 6, 15⟩) ∧
    default_date_window = 30 ∧
    isoFormat (ymd2ord ⟨2024, 1, 10⟩ + 1) = "2024-01-11" :=
  have h := C2_window_resolution_precedence (ymd2ord ⟨2024, 6, 15⟩) "2024-01-10" "2024-02-01"
    (ymd2ord ⟨2024, 1, 10⟩) (ymd2ord ⟨2024, 2, 1⟩) (by decide) (by decide)
  ⟨h.1, h.2.1, h.2.2.1, h.2.2.2, by decide⟩

/-- C5: if the resolved start date is strictly after the resolved end date,
the run is a no-op rather than an error: `get_records` yields zero records
with a normal outcome, the day iterator yields zero day contexts, and the
bookmark (whose advancement only observes emitted records) is unchanged. -/
theorem C5_empty_window_noop (dw : Nat) (hk : Bool) (today : Nat)
    (rv cs ce : Option String) (transport : Nat → List Attempt) (prev : Option String)
    (h : (resolveWindow dw hk today rv cs ce).2 < (resolveWindow dw hk today rv cs ce).1) :
    get_records dw hk today rv cs ce transport = ([], .ok) ∧
    dayContexts (resolveWindow dw hk today rv cs ce).1
      (resolveWindow dw hk today rv cs ce).2 [] = [] ∧
    advanceBookmark prev [] = prev := by
  refine ⟨?_, ?_, rfl⟩
  · simp [get_records, h]
  · simp [dayContexts, h]

theorem C5_empty_window_noop_witness :
    get_records 30 true (ymd2ord ⟨2024, 1, 5⟩) none (some "2024-02-01") (some "2024-01-01")
      (fun _ => []) = ([], .ok) ∧
    dayContexts
      (resolveWindow 30 true (ymd2ord ⟨2024, 1, 5⟩) none (some "2024-02-01") (some "2024-01-01")).1
      (resolveWindow 30 true (ymd2ord ⟨2024, 1, 5⟩) none (some "2024-02-01") (some "2024-01-01")).2
      [] = [] ∧
    advanceBookmark (some "2023-12-31") [] = some "2023-12-31" :=
  C5_empty_window_noop 30 true (ymd2ord ⟨2024, 1, 5⟩) none (some "2024-02-01")
    (some "2024-01-01") (fun _ => []) (some "2023-12-31") (by decide)

/-- C6: for every window with `start ≤ end`, the day iteration yields exactly
`(end - start) + 1` day contexts, the `i`-th being the context of day
`start + i` (hence chronological and inclusive of both endpoints), and every
day context has `start_date = end_date = date =` that day's ISO string. -/
theorem C6_day_decomposition (s e : Nat) (ctx : List (String × String)) (h : s ≤ e) :
    (dayContexts s e ctx).length = (e - s) + 1 ∧
    (∀ i, i ≤ e - s → (dayContexts s e ctx)[i]? = some (mkDayContext (s + i) ctx)) ∧
    (∀ d, (mkDayContext d ctx).start_date = isoFormat d ∧
      (mkDayContext d ctx).end_date = isoFormat d ∧
      (mkDayContext d ctx).date = isoFormat d) ∧
    (dayContexts s e ctx)[0]? = some (mkDayContext s ctx) ∧
    (dayContexts s e ctx)[e - s]? = some (mkDayContext e ctx) := by
  have hns : ¬ e < s := not_lt.mpr h
  have hall : ∀ i, i ≤ e - s → (dayContexts s e ctx)[i]? = some (mkDayContext (s + i) ctx) := by
    intro i hi
    have hlt : i < e - s + 1 := Nat.lt_succ_of_le hi
    simp [dayContexts, hns, dayOrdinals, List.getElem?_map, List.getElem?_range, hlt]
  refine ⟨?_, hall, fun d => ⟨rfl, rfl, rfl⟩, ?_, ?_⟩
  · simp [dayContexts, hns, dayOrdinals]
  · simpa using hall 0 (Nat.zero_le _)
  · have he := hall (e - s) le_rfl
    rwa [Nat.add_sub_cancel' h] at he

theorem C6_day_decomposition_witness :
    (dayContexts (ymd2ord ⟨2024, 3, 1⟩) (ymd2ord ⟨2024, 3, 3⟩) []).length = 3 ∧
    (dayContexts (ymd2ord ⟨2024, 3, 1⟩) (ymd2ord ⟨2024, 3, 3⟩) [])[1]? =
      some (mkDayContext (ymd2ord ⟨2024, 3, 1⟩ + 1) []) ∧
    isoFormat (ymd2ord ⟨2024, 3, 1⟩ + 1) = "2024-03-02" := by
  have h := C6_day_decomposition (ymd2ord ⟨2024, 3, 1⟩) (ymd2ord ⟨2024, 3, 3⟩) [] (by decide)
  refine ⟨?_, h.2.1 1 (by decide), by decide⟩
  rw [h.1]
  decide

/-- C7: a malformed date string is never fatal to date-range resolution: a
malformed override `start_date` falls back to the bookmark-derived start when
a bookmark parses, and to the cold-start value otherwise; a malformed override
`end_date` falls back to today; an unparseable bookmark date falls back to the
cold-start window; and the run proceeds exactly as if the malformed override
were absent. -/
theorem C7_malformed_dates_recovered (dw today : Nat) (bad rv : String) (last : Nat)
    (transport : Nat → List Attempt)
    (hbad : parseIsoDate bad = none) (hrv : parseIsoDate rv = some last) :
    (resolveWindow dw true today (some rv) (some bad) none).1 = last + 1 ∧
    (resolveWindow dw true today none (some bad) none).1 = today - dw ∧
    (resolveWindow dw true today none none (some bad)).2 = today ∧
    resolveWindow dw true today (some bad) none none = (today - dw, today) ∧
    get_records dw true today (some rv) (some bad) none transport
      = get_records dw true today (some rv) none none transport := by
  have hne : rv ≠ "" := by
    intro h
    rw [h, show parseIsoDate "" = none from rfl] at hrv
    exact Option.noConfusion hrv
  have hres : resolveWindow dw true today (some rv) (some bad) none
      = resolveWindow dw true today (some rv) none none := by
    simp [resolveWindow, hbad]
  refine ⟨?_, ?_, ?_, ?_, ?_⟩
  · simp [resolveWindow, hbad, hrv, hne]
  · simp [resolveWindow, hbad]
  · simp [resolveWindow, hbad]
  · by_cases hb : bad = "" <;> simp [resolveWindow, hbad, hb]
  · simp [get_records, hres]

theorem C7_malformed_dates_recovered_witness :
    (resolveWindow 30 true (ymd2ord ⟨2024, 6, 15⟩) (some "2024-01-10") (some "02/01/2024") none).1
      = ymd2ord ⟨2024, 1, 10⟩ + 1 ∧
    (resolveWindow 30 true (ymd2ord ⟨2024, 6, 15⟩) none (some "02/01/2024") none).1
      = ymd2ord ⟨2024, 6, 15⟩ - 30 ∧
    (resolveWindow 30 true (ymd2ord ⟨2024, 6, 15⟩) none none (some "02/01/2024")).2
      = ymd2ord ⟨2024, 6, 15⟩ ∧
    resolveWindow 30 true (ymd2ord ⟨2024, 6, 15⟩) (some "02/01/2024") none none
      = (ymd2ord ⟨2024, 6, 15⟩ - 30, ymd2ord ⟨2024, 6, 15⟩) ∧
    get_records 30 true (ymd2ord ⟨2024, 6, 15⟩) (some "2024-01-10") (some "02/01/2024") none
        (fun _ => [])
      = get_records 30 true (ymd2ord ⟨2024, 6, 15⟩) (some "2024-01-10") none none
        (fun _ => []) :=
  C7_malformed_dates_recovered 30 (ymd2ord ⟨2024, 6, 15⟩) "02/01/2024" "2024-01-10"
    (ymd2ord ⟨2024, 1, 10⟩) (fun _ => []) (by decide) (by decide)

/-- C3 (counterexample): with `max_retries = 5` the code sleeps only while
`retry_count < max_retries`, so five consecutive connection resets produce the
sleep sequence `[1, 2, 4, 8]` — a 16-second sleep never occurs, refuting the
claimed sleeps of 1, 2, 4, 8 and 16 seconds. -/
theorem C3_retry_backoff_counterexample :
    runDay (List.replicate 5 (Attempt.connReset [])) = ([], [1, 2, 4, 8], .failedConnReset) ∧
    (runDay (List.replicate 5 (Attempt.connReset []))).2.1 ≠ [1, 2, 4, 8, 16] ∧
    16 ∉ (runDay (List.replicate 5 (Attempt.connReset []))).2.1 := by
  decide

/-- C3 (amended): transient connection-reset failures during a day's fetch are
retried with delay `1s × 2^(attempt-1)` up to 4 retries after the initial
attempt (5 attempts in total), i.e. sleeps of 1, 2, 4 and 8 seconds; the fifth
consecutive failure re-raises `ConnectionResetError` to the caller (the day is
never skipped silently), while an interrupted attempt's already-yielded
records stay emitted. -/
theorem C3_retry_backoff_amended (ys1 ys2 ys3 ys4 ys5 rs : List Rec) :
    runDay [.connReset ys1, .connReset ys2, .connReset ys3, .connReset ys4, .connReset ys5]
      = (ys1 ++ (ys2 ++ (ys3 ++ (ys4 ++ ys5))), [1, 2, 4, 8], .failedConnReset) ∧
    runDay [.connReset ys1, .connReset ys2, .connReset ys3, .success rs]
      = (ys1 ++ (ys2 ++ (ys3 ++ rs)), [1, 2, 4], .ok) := by
  constructor <;> simp [runDay, runDayLoop]

theorem C3_retry_backoff_amended_witness :
    runDay [.connReset [], .connReset [], .connReset [], .connReset [], .connReset []]
      = ([], [1, 2, 4, 8], .failedConnReset) ∧
    runDay [.connReset [], .connReset [], .connReset [],
        .success [[("count", FieldVal.int 1)]]]
      = ([[("count", FieldVal.int 1)]], [1, 2, 4], .ok) :=
  have h := C3_retry_backoff_amended [] [] [] [] [] [[("count", FieldVal.int 1)]]
  ⟨h.1, h.2⟩

/-- C10: a day's emission is not atomic under retry — records yielded before a
mid-fetch `ConnectionResetError` stay emitted, the retry restarts the day's
fetch from the beginning, and when the records of the interrupted attempt are
served again by the successful attempt, each appears at least twice in the
run's output. -/
theorem C10_retry_duplicates (ys rs : List Rec) (more : List Attempt)
    (hsub : ∀ x ∈ ys, x ∈ rs) :
    runDay (.connReset ys :: .success rs :: more) = (ys ++ rs, [1], .ok) ∧
    ∀ x ∈ ys, 2 ≤ (runDay (.connReset ys :: .success rs :: more)).1.count x := by
  have hrun : runDay (.connReset ys :: .success rs :: more) = (ys ++ rs, [1], .ok) := by
    simp [runDay, runDayLoop]
  refine ⟨hrun, ?_⟩
  intro x hx
  rw [hrun]
  have h1 : 0 < ys.count x := List.count_pos_iff.mpr hx
  have h2 : 0 < rs.count x := List.count_pos_iff.mpr (hsub x hx)
  simp only [List.count_append]
  omega

theorem C10_retry_duplicates_witness :
    runDay [.connReset [[("search", FieldVal.str "a")]],
        .success [[("search", FieldVal.str "a")], [("search", FieldVal.str "b")]]]
      = ([[("search", FieldVal.str "a")], [("search", FieldVal.str "a")],
          [("search", FieldVal.str "b")]], [1], .ok) ∧
    2 ≤ (runDay [.connReset [[("search", FieldVal.str "a")]],
        .success [[("search", FieldVal.str "a")], [("search", FieldVal.str "b")]]]).1.count
      [("search", FieldVal.str "a")] :=
  have h := C10_retry_duplicates [[("search", FieldVal.str "a")]]
    [[("search", FieldVal.str "a")], [("search", FieldVal.str "b")]] [] (by decide)
  ⟨h.1, h.2 [("search", FieldVal.str "a")] (by decide)⟩

set_option maxRecDepth 10000 in
/-- C1 (counterexample): a full first page does not advance the offset or
trigger a second request — with a page of exactly 1000 records (the default
limit), the day's fetch still issues exactly one request, with no page token,
refuting the claimed advance-by-record-count-on-full-page behaviour. -/
theorem C1_pagination_counterexample :
    (List.replicate 1000 ([] : Rec)).length = 1000 ∧
    analyticsDayPages (fun _ => List.replicate 1000 ([] : Rec)) 5
      = [(none, ⟨List.replicate 1000 ([] : Rec), none⟩)] ∧
    (analyticsDayPages (fun _ => List.replicate 1000 ([] : Rec)) 5).length = 1 ∧
    (analyticsDayPages (fun _ => List.replicate 1000 ([] : Rec)) 5).length ≠ 2 := by
  decide

/-- C1 (amended): every analytics page request carries a fixed page size
(default 1000, from `getattr(self, "limit", 1000)`) and offset 0 (there is
never a page token, so `get_url_params` falls to its `offset = 0` branch):
because the analytics streams configure no next-page token source and the
responses carry none, exactly one page is fetched per day regardless of the
page's record count and the offset never advances — in particular a day whose
first page returns fewer records than the limit results in exactly one page
fetched for that day. -/
theorem C1_one_page_per_day (pageAt : Option Nat → List Rec) (fuel today : Nat)
    (idx sd ed : String) (hidx : idx ≠ "") :
    analyticsDayPages pageAt (fuel + 1) = [(none, ⟨pageAt none, none⟩)] ∧
    (∀ p ∈ analyticsDayPages pageAt (fuel + 1), p.1 = none) ∧
    get_url_params (some idx) [] (some (sd, ed)) today 30 true none none none
      = some ⟨idx, sd, ed, true, none, 1000, 0⟩ := by
  have h1 : analyticsDayPages pageAt (fuel + 1) = [(none, ⟨pageAt none, none⟩)] := by
    simp [analyticsDayPages, requestPages]
  refine ⟨h1, ?_, ?_⟩
  · intro p hp
    rw [h1] at hp
    simp at hp
    subst hp
    rfl
  · simp [get_url_params, hidx]

theorem C1_one_page_per_day_witness :
    analyticsDayPages (fun _ => [[("search", FieldVal.str "a")]]) (4 + 1)
      = [(none, ⟨[[("search", FieldVal.str "a")]], none⟩)] ∧
    get_url_params (some "prod") [] (some ("2024-05-05", "2024-05-05")) 0 30 true none none none
      = some ⟨"prod", "2024-05-05", "2024-05-05", true, none, 1000, 0⟩ :=
  have h := C1_one_page_per_day (fun _ => [[("search", FieldVal.str "a")]]) 4 0
    "prod" "2024-05-05" "2024-05-05" (by decide)
  ⟨h.1, h.2.2⟩

/-- C4 (counterexample): a record that already carries a string `date` field
passes through the base `AlgoliaAnalyticsStream.get_records` unchanged — for
day 2024-05-05 the emitted record keeps `date = "2024-01-01"`, which is not
the day being fetched, refuting the claim that `date` is always overwritten
with the processed day for every stream. -/
theorem C4_date_field_counterexample :
    get_records 30 true (ymd2ord ⟨2024, 5, 5⟩) none (some "2024-05-05") (some "2024-05-05")
      (fun _ => [Attempt.success [[("date", FieldVal.str "2024-01-01")]]])
      = ([[("date", FieldVal.str "2024-01-01")]], .ok) ∧
    isoFormat (ymd2ord ⟨2024, 5, 5⟩) = "2024-05-05" ∧
    ([("date", FieldVal.str "2024-01-01")] : Rec) ≠ [("date", FieldVal.str "2024-05-05")] := by
  decide

/-- C4 (amended): in the query-list streams that override `get_records`
(`top_searches`, `no_results_searches`, `no_clicks_searches`) the `date` field
is unconditionally overwritten with the processed day's ISO string; in the
base analytics `get_records` the day's ISO string is written only when `date`
is absent, a present non-string date-like value is replaced by its own
`isoformat()` rendering (not the day's), and a present string `date` is left
unchanged. -/
theorem C4_date_field_amended (day o : Nat) (r : Rec) (s : String) :
    lookupF (overwriteDate day r) "date" = some (.str (isoFormat day)) ∧
    (lookupF r "date" = none →
      lookupF (fixDate day r) "date" = some (.str (isoFormat day))) ∧
    (lookupF r "date" = some (.str s) → fixDate day r = r) ∧
    (lookupF r "date" = some (.dateVal o) →
      lookupF (fixDate day r) "date" = some (.str (isoFormat o))) := by
  refine ⟨lookupF_setF_self r "date" _, ?_, ?_, ?_⟩ <;>
    intro h <;> simp [fixDate, overwriteDate, h, lookupF_setF_self]

theorem C4_date_field_amended_witness :
    lookupF (overwriteDate (ymd2ord ⟨2024, 5, 5⟩) [("date", FieldVal.str "2024-01-01")]) "date"
      = some (.str (isoFormat (ymd2ord ⟨2024, 5, 5⟩))) ∧
    lookupF (fixDate (ymd2ord ⟨2024, 5, 5⟩) [("count", FieldVal.int 3)]) "date"
      = some (.str (isoFormat (ymd2ord ⟨2024, 5, 5⟩))) ∧
    fixDate (ymd2ord ⟨2024, 5, 5⟩) [("date", FieldVal.str "2024-01-01")]
      = [("date", FieldVal.str "2024-01-01")] ∧
    lookupF (fixDate (ymd2ord ⟨2024, 5, 5⟩) [("date", FieldVal.dateVal (ymd2ord ⟨2024, 1, 1⟩))]) "date"
      = some (.str (isoFormat (ymd2ord ⟨2024, 1, 1⟩))) ∧
    isoFormat (ymd2ord ⟨2024, 5, 5⟩) = "2024-05-05" :=
  have h1 := C4_date_field_amended (ymd2ord ⟨2024, 5, 5⟩) 0 [("date", FieldVal.str "2024-01-01")] "2024-01-01"
  have h2 := C4_date_field_amended (ymd2ord ⟨2024, 5, 5⟩) 0 [("count", FieldVal.int 3)] ""
  have h3 := C4_date_field_amended (ymd2ord ⟨2024, 5, 5⟩) (ymd2ord ⟨2024, 1, 1⟩)
    [("date", FieldVal.dateVal (ymd2ord ⟨2024, 1, 1⟩))] ""
  ⟨h1.1, h2.2.1 (by decide), h1.2.2.1 (by decide), h3.2.2.2 (by decide), by decide⟩

/-- Writing `start_date` does not disturb `index_name`. -/
theorem lookupF_set_start (e : Rec) (v : FieldVal) :
    lookupF (setF e "start_date" v) "index_name" = lookupF e "index_name" :=
  lookupF_setF_other e "index_name" "start_date" v (by decide)

/-- Writing `end_date` does not disturb `index_name`. -/
theorem lookupF_set_end (e : Rec) (v : FieldVal) :
    lookupF (setF e "end_date" v) "index_name" = lookupF e "index_name" :=
  lookupF_setF_other e "index_name" "end_date" v (by decide)

/-- The record the claim C8 says the round-trip yields. -/
def claimRecordC8 : Rec :=
  [("search", .str "shoes"), ("count", .int 10),
   ("index_name", .str "prod"), ("date", .str "2024-05-05")]

/-- The record the code actually yields for that input: `parse_response` also
writes `start_date` and `end_date` from the request URL's single-day range. -/
def enrichedRecordC8 : Rec :=
  [("search", .str "shoes"), ("count", .int 10), ("index_name", .str "prod"),
   ("start_date", .str "2024-05-05"), ("end_date", .str "2024-05-05"),
   ("date", .str "2024-05-05")]

/-- C8 (counterexample): normalizing the raw body
`searches: [(search shoes, count 10)]` for index `prod` on day 2024-05-05
yields a record that additionally carries `start_date` and `end_date`
(both `"2024-05-05"`), so it is not the four-field record stated by the
claim — the two dicts differ on the key `start_date`. -/
theorem C8_enrichment_counterexample :
    topSearchesDayRecords (ymd2ord ⟨2024, 5, 5⟩) "prod"
      [.dict [("search", .str "shoes"), ("count", .int 10)]] = [enrichedRecordC8] ∧
    enrichedRecordC8 ≠ claimRecordC8 ∧
    lookupF enrichedRecordC8 "start_date" = some (.str "2024-05-05") ∧
    lookupF claimRecordC8 "start_date" = none := by
  decide

/-- C8 (amended): the round-trip for index `prod` on day 2024-05-05 yields
`search = shoes, count = 10, index_name = prod, start_date = end_date = date
= 2024-05-05`; and for every dict entry, `index_name` is taken from the
request's resolved index exactly when the entry does not already carry an
`index_name` field. -/
theorem C8_enrichment_amended (r : Rec) (idx : String) (sd ed : Option String) (v : FieldVal) :
    topSearchesDayRecords (ymd2ord ⟨2024, 5, 5⟩) "prod"
      [.dict [("search", .str "shoes"), ("count", .int 10)]] = [enrichedRecordC8] ∧
    (lookupF r "index_name" = some v →
      ∀ r1 ∈ parse_response [.dict r] idx sd ed, lookupF r1 "index_name" = some v) ∧
    (lookupF r "index_name" = none →
      ∀ r1 ∈ parse_response [.dict r] idx sd ed,
        lookupF r1 "index_name" = some (.str idx)) := by
  refine ⟨by decide, ?_, ?_⟩
  · intro hv r1 hr1
    have hs : (lookupF r "index_name").isSome = true := by rw [hv]; rfl
    cases sd <;> cases ed <;>
      simp [parse_response, hs] at hr1 <;>
      subst hr1 <;>
      simp [lookupF_set_start, lookupF_set_end, hv]
  · intro hn r1 hr1
    have hs : (lookupF r "index_name").isSome = false := by rw [hn]; rfl
    cases sd <;> cases ed <;>
      simp [parse_response, hs] at hr1 <;>
      subst hr1 <;>
      simp [lookupF_set_start, lookupF_set_end, lookupF_setF_self]

theorem C8_enrichment_amended_witness :
    topSearchesDayRecords (ymd2ord ⟨2024, 5, 5⟩) "prod"
      [.dict [("search", .str "shoes"), ("count", .int 10)]] = [enrichedRecordC8] ∧
    (∀ r1 ∈ parse_response [.dict [("index_name", FieldVal.str "kept")]] "prod"
        (some "2024-05-05") (some "2024-05-05"),
      lookupF r1 "index_name" = some (.str "kept")) ∧
    (∀ r1 ∈ parse_response [.dict [("search", FieldVal.str "shoes")]] "prod"
        (some "2024-05-05") (some "2024-05-05"),
      lookupF r1 "index_name" = some (.str "prod")) :=
  have h1 := C8_enrichment_amended [("index_name", FieldVal.str "kept")] "prod"
    (some "2024-05-05") (some "2024-05-05") (FieldVal.str "kept")
  have h2 := C8_enrichment_amended [("search", FieldVal.str "shoes")] "prod"
    (some "2024-05-05") (some "2024-05-05") (FieldVal.str "kept")
  ⟨h1.1, h1.2.1 (by decide), h2.2.2 (by decide)⟩

/-- C9: a non-integer numeric field is handed to the decimal parser
(`parse_float=decimal.Decimal`), so the raw JSON text `0.1` becomes the exact
decimal value 1/10 and round-trips to the literal string `"0.1"`; no binary
floating-point value `m / 2^k` is equal to it. -/
theorem C9_decimal_fidelity :
    decFromJsonToken "0.1" = some ⟨false, [1], -1⟩ ∧
    decToString ⟨false, [1], -1⟩ = "0.1" ∧
    decValue ⟨false, [1], -1⟩ = 1 / 10 ∧
    ∀ (m : ℤ) (k : ℕ), ((m : ℚ) / 2 ^ k) ≠ decValue ⟨false, [1], -1⟩ := by
  have hval : decValue ⟨false, [1], -1⟩ = 1 / 10 := by
    norm_num [decValue, List.foldl, zpow_neg, zpow_one]
  refine ⟨by decide, by decide, hval, ?_⟩
  intro m k h
  rw [hval] at h
  have h2k : ((2 : ℚ) ^ k) ≠ 0 := by positivity
  have h10 : (m : ℚ) * 10 = 2 ^ k := by
    field_simp at h
    linarith
  have hz : m * 10 = 2 ^ k := by exact_mod_cast h10
  have h5 : (5 : ℤ) ∣ 2 ^ k := ⟨m * 2, by linarith⟩
  have hp : Prime (5 : ℤ) := by
    rw [Int.prime_iff_natAbs_prime]
    norm_num
  have h52 : (5 : ℤ) ∣ 2 := hp.dvd_of_dvd_pow h5
  norm_num at h52

theorem C9_decimal_fidelity_witness :
    decFromJsonToken "0.1" = some ⟨false, [1], -1⟩ ∧
    decToString ⟨false, [1], -1⟩ = "0.1" ∧
    ((3 : ℚ) / 2 ^ 5) ≠ decValue ⟨false, [1], -1⟩ :=
  have h := C9_decimal_fidelity
  ⟨h.1, h.2.1, h.2.2.2 3 5⟩

end TapAlgolia
